import Mathlib

set_option autoImplicit false

namespace VibeCode

/-- Sprite payload of a PokeAPI pokemon record; mirrors the source type
`PokemonSprites` with its nested optional official-artwork block
(`other?.["official-artwork"]?.front_default : string | null`). -/
structure OfficialArtwork where
  front_default : Option String
deriving Repr, DecidableEq

/-- Mirrors the source field `other?: { ["official-artwork"]?: ... }`. -/
structure SpritesOther where
  officialArtwork : Option OfficialArtwork
deriving Repr, DecidableEq

/-- Mirrors the source type `PokemonSprites`. -/
structure PokemonSprites where
  front_default : Option String
  other : Option SpritesOther
deriving Repr, DecidableEq

/-- Source `getSpriteUrl`: `sprites.other?.["official-artwork"]?.front_default
?? sprites.front_default ?? ""`; optional chaining and nullish coalescing become
`Option.bind` / `Option.orElse` / `Option.getD`. -/
def getSpriteUrl (sprites : PokemonSprites) : String :=
  ((((sprites.other.bind fun o => o.officialArtwork).bind fun a => a.front_default).orElse
    fun _ => sprites.front_default).getD "")

/-- JavaScript `url.split("/")` for the single-character separator used by the
source: splits a character list at every slash, keeping empty segments exactly
as JavaScript does. -/
def splitOnSlashAux : List Char → List Char → List String
  | [], acc => [String.mk acc.reverse]
  | c :: rest, acc =>
    if c = '/' then String.mk acc.reverse :: splitOnSlashAux rest []
    else splitOnSlashAux rest (c :: acc)

/-- JavaScript `url.split("/")` on the string's characters. -/
def splitOnSlash (url : String) : List String :=
  splitOnSlashAux url.toList []

/-- JavaScript `Number(segment)` guarded by `Number.isFinite`, restricted to
the decimal numerals that occur as URL id segments: an all-digit string parses
to its value, anything else is `NaN` and is rejected. The argument is never
empty here because empty segments were already filtered out. -/
def parseNatSegment (s : String) : Option Nat :=
  let cs := s.toList
  if cs.isEmpty then none
  else if cs.all fun c => c.isDigit then
    some (cs.foldl (fun n c => n * 10 + (c.toNat - 48)) 0)
  else none

/-- Source `extractIdFromUrl`: split the URL on `/`, drop empty segments
(`filter(Boolean)`), take the last segment and parse it as a number; a parse
failure (`Number(...)` not finite) yields `null`, modelled as `none`; an empty
segment list makes the last element `undefined`, hence `NaN`, hence `none`. -/
def extractIdFromUrl (url : String) : Option Nat :=
  let segments := (splitOnSlash url).filter fun s => s != ""
  (segments.getLast?).bind fun last => parseNatSegment last

/-- Source `getOfficialArtworkUrl`: the fixed static-asset path template
parameterised only by the numeric id. -/
def getOfficialArtworkUrl (id : Nat) : String :=
  "https://raw.githubusercontent.com/PokeAPI/sprites/master/other/official-artwork/" ++
    toString id ++ ".png"

/-- Source type `EvolutionChainLink`: a tree node with a species reference
(`species.name`, `species.url`) and the list of direct next-stage evolutions
(`evolves_to`). -/
inductive EvolutionChainLink : Type where
  | node (species_name : String) (species_url : String)
      (evolves_to : List EvolutionChainLink)
deriving Repr

/-- Source type `EvolutionStageSpecies` (`id`, `name`, `artwork`). -/
structure EvolutionStageSpecies where
  id : Nat
  name : String
  artwork : String
deriving Repr, DecidableEq

/-- Source type `EvolutionStage` (`species: EvolutionStageSpecies[]`). -/
structure EvolutionStage where
  species : List EvolutionStageSpecies
deriving Repr, DecidableEq

/-- Source `if (!stages[level]) stages[level] = { species: [] }`: the stage
array is extended so that index `level` exists. During the traversal `level`
never exceeds the current length by more than one, so this appends at most one
fresh empty stage. -/
def ensureLevel (stages : List EvolutionStage) (level : Nat) : List EvolutionStage :=
  stages ++ List.replicate (level + 1 - stages.length) ⟨[]⟩

/-- Source `stages[level]!.species.push(entry)`: append `entry` at the end of
the species list of the stage at index `level`. -/
def pushEntry : List EvolutionStage → Nat → EvolutionStageSpecies → List EvolutionStage
  | [], _, _ => []
  | stage :: rest, 0, entry => ⟨stage.species ++ [entry]⟩ :: rest
  | stage :: rest, level + 1, entry => stage :: pushEntry rest level entry

mutual

/-- Source `traverse(node, level)` inside `buildEvolutionStages`: ensure the
stage at `level` exists, push a `StageSpecies` entry for the node when its id
parses from the species URL (silently skipping it otherwise), then recurse
into `evolves_to` at `level + 1` (depth-first, in sibling order). -/
def traverse (node : EvolutionChainLink) (level : Nat) (stages : List EvolutionStage) :
    List EvolutionStage :=
  match node with
  | .node name url children =>
    traverseList children (level + 1)
      (match extractIdFromUrl url with
       | some speciesId =>
           pushEntry (ensureLevel stages level) level
             ⟨speciesId, name, getOfficialArtworkUrl speciesId⟩
       | none => ensureLevel stages level)

/-- Source `node.evolves_to.forEach((child) => traverse(child, level + 1))`:
left-to-right fold of `traverse` over the children. -/
def traverseList (nodes : List EvolutionChainLink) (level : Nat)
    (stages : List EvolutionStage) : List EvolutionStage :=
  match nodes with
  | [] => stages
  | child :: rest => traverseList rest level (traverse child level stages)

end

/-- Source `buildEvolutionStages`: traverse the chain from the root at level 0,
then drop stages that ended up with zero entries
(`stages.filter((stage) => stage.species.length > 0)`). -/
def buildEvolutionStages (chain : EvolutionChainLink) : List EvolutionStage :=
  (traverse chain 0 []).filter fun stage => decide (stage.species.length > 0)

/-- One per-entry step of the source `hydrateEvolutionStages`: the outcome of
`fetch(https://pokeapi.co/api/v2/pokemon/id)` is the oracle `lookup`; `none`
stands for any failure (network error, non-ok status, or JSON parse failure),
in which case the caught exception returns the entry unchanged. On success the
artwork becomes `getSpriteUrl(details.sprites) || species.artwork` (the empty
string is falsy, so it falls back to the original artwork). -/
def hydrateSpecies (lookup : Nat → Option PokemonSprites)
    (species : EvolutionStageSpecies) : EvolutionStageSpecies :=
  match lookup species.id with
  | none => species
  | some sprites =>
    let artwork := if getSpriteUrl sprites = "" then species.artwork else getSpriteUrl sprites
    ⟨species.id, species.name, artwork⟩

/-- Source `hydrateEvolutionStages`: `Promise.all` over the stages and, within
each stage, `Promise.all` over its species list; `Promise.all` returns results
in input order, so both levels are order-preserving maps. -/
def hydrateEvolutionStages (lookup : Nat → Option PokemonSprites)
    (stages : List EvolutionStage) : List EvolutionStage :=
  stages.map fun stage => ⟨stage.species.map (hydrateSpecies lookup)⟩

/-- Parsed species record as used by the source `fetchEvolutionStages`:
`speciesData.evolution_chain?.url`, which may be absent. -/
structure SpeciesData where
  evolution_chain_url : Option String
deriving Repr

/-- Source `fetchEvolutionStages(speciesUrl, currentPokemonId)`. Fetch outcomes
are oracles: `speciesResult = none` models the species fetch failing (network
error, non-ok status, or JSON parse failure), which the catch turns into
`null`; likewise `chainResult = none` for the evolution-chain fetch. On
success: no `evolution_chain.url` returns `[]`; otherwise build, hydrate, find
the stage containing `currentPokemonId` (`findIndex` returning `-1` is
`none`), return `[]` when absent, else the stages strictly after it
(`slice(currentStageIndex + 1)`). -/
def fetchEvolutionStages (speciesResult : Option SpeciesData)
    (chainResult : Option EvolutionChainLink)
    (lookup : Nat → Option PokemonSprites)
    (currentPokemonId : Nat) : Option (List EvolutionStage) :=
  match speciesResult with
  | none => none
  | some speciesData =>
    match speciesData.evolution_chain_url with
    | none => some []
    | some _chainUrl =>
      match chainResult with
      | none => none
      | some chain =>
        let baseStages := buildEvolutionStages chain
        let hydratedStages := hydrateEvolutionStages lookup baseStages
        match List.findIdx?
            (fun stage => stage.species.any fun species => species.id == currentPokemonId)
            hydratedStages with
        | none => some []
        | some currentStageIndex => some (hydratedStages.drop (currentStageIndex + 1))

/-- Modelled from the spec (section 4.1): the Resolver on its own, producing raw
stages before hydration — build the stages, locate the stage containing
`currentPokemonId`, return the stages strictly after it, and the empty sequence
when the species is not represented in its own chain. Used to compare the
spec's Resolver-then-Hydrator composition with the code's hydrate-then-slice
order. -/
def resolveStages (chain : EvolutionChainLink) (currentPokemonId : Nat) :
    List EvolutionStage :=
  let baseStages := buildEvolutionStages chain
  match List.findIdx?
      (fun stage => stage.species.any fun species => species.id == currentPokemonId)
      baseStages with
  | none => []
  | some currentStageIndex => baseStages.drop (currentStageIndex + 1)

/-- Projection of a stage to the identity data of its entries, in order. -/
def stageIds (stage : EvolutionStage) : List Nat :=
  stage.species.map fun s => s.id

/-- Projection of a stage to the id and name of its entries, in order. -/
def stageIdNames (stage : EvolutionStage) : List (Nat × String) :=
  stage.species.map fun s => (s.id, s.name)

/-- The multiset of all entries occurring in a stage list, forgetting stage
boundaries and order. -/
def entryMultiset (stages : List EvolutionStage) : Multiset EvolutionStageSpecies :=
  (stages.map fun stage => (stage.species : Multiset EvolutionStageSpecies)).sum

mutual

/-- The entries a chain is specified to contribute to the flattened stages: a
node whose species URL parses to an id contributes exactly the entry built from
that id and its name, a node whose URL does not parse contributes nothing, and
the children of either kind of node contribute independently. -/
def parseableEntries : EvolutionChainLink → Multiset EvolutionStageSpecies
  | .node name url children =>
    (match extractIdFromUrl url with
     | some speciesId =>
         {(⟨speciesId, name, getOfficialArtworkUrl speciesId⟩ : EvolutionStageSpecies)}
     | none => 0) + parseableEntriesList children

/-- Entries contributed by a list of sibling subtrees. -/
def parseableEntriesList : List EvolutionChainLink → Multiset EvolutionStageSpecies
  | [] => 0
  | child :: rest => parseableEntries child + parseableEntriesList rest

end

/-- Source constant `MIN_POKEMON_ID = 1`. -/
def MIN_POKEMON_ID : Int := 1

/-- Source constant `MAX_POKEMON_ID = 1025`. -/
def MAX_POKEMON_ID : Int := 1025

/-- Source constant `TOTAL_POKEMON_COUNT = MAX_POKEMON_ID - MIN_POKEMON_ID + 1`. -/
def TOTAL_POKEMON_COUNT : Int := MAX_POKEMON_ID - MIN_POKEMON_ID + 1

/-- The target-id computation of the source `handleNavigate`:
`((pokemon.id - MIN_POKEMON_ID + offset + TOTAL_POKEMON_COUNT) % TOTAL_POKEMON_COUNT)
+ MIN_POKEMON_ID`, where the JavaScript `%` is the truncated remainder
(`Int.tmod`). -/
def navigateTargetId (currentId offset : Int) : Int :=
  (currentId - MIN_POKEMON_ID + offset + TOTAL_POKEMON_COUNT).tmod TOTAL_POKEMON_COUNT +
    MIN_POKEMON_ID

/-- Source type `PokemonType` (`slot`, `type.name`), with the inner object
flattened to its only field. -/
structure PokemonType where
  slot : Nat
  type_name : String
deriving Repr, DecidableEq

/-- Source type `PokemonCries` (`latest: string | null`,
`legacy?: string | null`). -/
structure PokemonCries where
  latest : Option String
  legacy : Option (Option String)
deriving Repr, DecidableEq

/-- Source type `PokemonSpecies` (the species reference on a pokemon record). -/
structure PokemonSpeciesRef where
  name : String
  url : String
deriving Repr, DecidableEq

/-- Source type `Pokemon`. The species reference is optional because the code
reads it defensively with `data.species?.url`. -/
structure Pokemon where
  id : Nat
  name : String
  height : Nat
  weight : Nat
  sprites : PokemonSprites
  types : List PokemonType
  cries : PokemonCries
  species : Option PokemonSpeciesRef
deriving Repr, DecidableEq

/-- JavaScript `String.prototype.toLowerCase` on the ASCII strings this
application handles. -/
def jsToLower (s : String) : String :=
  String.mk (s.toList.map Char.toLower)

/-- JavaScript `String.prototype.trim` on the whitespace this application
handles: drop leading and trailing whitespace characters. -/
def jsTrim (s : String) : String :=
  String.mk (((s.toList.dropWhile Char.isWhitespace).reverse.dropWhile
    Char.isWhitespace).reverse)

/-- Source `getFormattedName`:
`name.charAt(0).toUpperCase() + name.slice(1)`. -/
def getFormattedName (name : String) : String :=
  match name.toList with
  | [] => ""
  | c :: rest => String.mk (c.toUpper :: rest)

/-- The source `fetchPokemon` argument `identifier: string | number`. -/
inductive SearchIdentifier : Type where
  | str (s : String)
  | num (n : Nat)
deriving Repr, DecidableEq

/-- Source normalisation in `fetchPokemon`: a number becomes its decimal
string, a string is trimmed and lower-cased. -/
def normalizeIdentifier : SearchIdentifier → String
  | .num n => toString n
  | .str s => jsToLower (jsTrim s)

/-- The mutable view state owned by the `Home` component: query text, the
displayed record, the error message, the in-flight flag, and the tri-state
evolution stages (`null` = not yet attempted, `[]` = attempted and empty,
populated list otherwise). -/
structure PageState where
  query : String
  pokemon : Option Pokemon
  error : Option String
  isLoading : Bool
  evolutionStages : Option (List EvolutionStage)
deriving Repr, DecidableEq

/-- Source `fetchPokemon(identifier)` as a state transition. The outcome of the
primary `fetch(https://pokeapi.co/api/v2/pokemon/normalized)` is the oracle
`primaryResult` (`none` = network error, non-ok status, or JSON parse failure,
all landing in the catch); the resolver oracles are passed through to
`fetchEvolutionStages`. An empty normalised identifier sets the prompt error
and returns early; a failed primary lookup clears the record, sets the
not-found error, and sets the evolution stages to the empty list; a successful
lookup stores the record, formats the query, and stores
`fetchEvolutionStages(...) ?? []` (or `[]` when the species URL is missing or
empty). -/
def fetchPokemon (primaryResult : Option Pokemon) (speciesResult : Option SpeciesData)
    (chainResult : Option EvolutionChainLink) (lookup : Nat → Option PokemonSprites)
    (identifier : SearchIdentifier) (st : PageState) : PageState :=
  let normalized := normalizeIdentifier identifier
  if normalized = "" then
    { st with error := some "Enter a Pokémon name to search.",
              pokemon := none,
              evolutionStages := none }
  else
    let started : PageState :=
      { st with isLoading := true, error := none, evolutionStages := none }
    match primaryResult with
    | none =>
      { started with
          pokemon := none,
          error := some "No Pokémon found with that name. Try another search.",
          evolutionStages := some [],
          isLoading := false }
    | some data =>
      let shown : PageState :=
        { started with pokemon := some data, query := getFormattedName data.name }
      let withStages : PageState :=
        match data.species with
        | some speciesRef =>
          if speciesRef.url = "" then { shown with evolutionStages := some [] }
          else
            let stages :=
              (fetchEvolutionStages speciesResult chainResult lookup data.id).getD []
            { shown with evolutionStages := some stages }
        | none => { shown with evolutionStages := some [] }
      { withStages with isLoading := false }

/-- Source `handleNavigate(offset)`: an early return when no record is
displayed, otherwise the wrapped target id that is passed on to
`fetchPokemon`. -/
def handleNavigate (offset : Int) (st : PageState) : Option Int :=
  match st.pokemon with
  | none => none
  | some pokemon => some (navigateTargetId (pokemon.id : Int) offset)

/-- The three-stage linear evolution chain of the repository's own test data:
species ids 1, 2, 3 with root id 1. -/
def bulbasaurChain : EvolutionChainLink :=
  .node "bulbasaur" "https://pokeapi.co/api/v2/pokemon-species/1/"
    [.node "ivysaur" "https://pokeapi.co/api/v2/pokemon-species/2/"
      [.node "venusaur" "https://pokeapi.co/api/v2/pokemon-species/3/" []]]

/-- A concrete displayed record used to exercise the failure path of
`fetchPokemon`. -/
def displayedPikachu : Pokemon :=
  ⟨25, "pikachu", 4, 60, ⟨none, none⟩, [⟨1, "electric"⟩], ⟨none, none⟩,
    some ⟨"pikachu", "https://pokeapi.co/api/v2/pokemon-species/25/"⟩⟩

/-- A page state in which a record and a populated evolution section are
currently displayed. -/
def priorState : PageState :=
  ⟨"Pikachu", some displayedPikachu, none, false,
    some [⟨[⟨26, "raichu", getOfficialArtworkUrl 26⟩]⟩]⟩

theorem hydrateSpecies_id (lookup : Nat → Option PokemonSprites)
    (s : EvolutionStageSpecies) : (hydrateSpecies lookup s).id = s.id := by
  cases h : lookup s.id <;> simp [hydrateSpecies, h]

theorem hydrateSpecies_name (lookup : Nat → Option PokemonSprites)
    (s : EvolutionStageSpecies) : (hydrateSpecies lookup s).name = s.name := by
  cases h : lookup s.id <;> simp [hydrateSpecies, h]

theorem hydrateSpecies_of_fail (lookup : Nat → Option PokemonSprites)
    (s : EvolutionStageSpecies) (h : lookup s.id = none) :
    hydrateSpecies lookup s = s := by
  simp [hydrateSpecies, h]

theorem hydrate_stageIdNames (lookup : Nat → Option PokemonSprites)
    (stages : List EvolutionStage) :
    (hydrateEvolutionStages lookup stages).map stageIdNames = stages.map stageIdNames := by
  simp [hydrateEvolutionStages, stageIdNames, List.map_map, Function.comp_def,
    hydrateSpecies_id, hydrateSpecies_name]

theorem hydrate_stageIds (lookup : Nat → Option PokemonSprites)
    (stages : List EvolutionStage) :
    (hydrateEvolutionStages lookup stages).map stageIds = stages.map stageIds := by
  simp [hydrateEvolutionStages, stageIds, List.map_map, Function.comp_def,
    hydrateSpecies_id]

theorem hydrate_findIdx (lookup : Nat → Option PokemonSprites) (c : Nat)
    (stages : List EvolutionStage) :
    List.findIdx? (fun stage => stage.species.any fun sp => sp.id == c)
        (hydrateEvolutionStages lookup stages)
      = List.findIdx? (fun stage => stage.species.any fun sp => sp.id == c) stages := by
  simp [hydrateEvolutionStages, List.findIdx?_map, Function.comp_def, List.any_map,
    hydrateSpecies_id]

theorem fetch_eq_hydrate_resolve (u : String) (chain : EvolutionChainLink)
    (lookup : Nat → Option PokemonSprites) (c : Nat) :
    fetchEvolutionStages (some ⟨some u⟩) (some chain) lookup c
      = some (hydrateEvolutionStages lookup (resolveStages chain c)) := by
  simp only [fetchEvolutionStages, resolveStages]
  rw [hydrate_findIdx]
  cases h : List.findIdx?
      (fun stage => stage.species.any fun species => species.id == c)
      (buildEvolutionStages chain) with
  | none => simp [hydrateEvolutionStages]
  | some i => simp [hydrateEvolutionStages, List.map_drop]

theorem entryMultiset_nil : entryMultiset [] = 0 := rfl

theorem entryMultiset_cons (st : EvolutionStage) (stages : List EvolutionStage) :
    entryMultiset (st :: stages)
      = (st.species : Multiset EvolutionStageSpecies) + entryMultiset stages := by
  simp [entryMultiset]

theorem entryMultiset_append (l₁ l₂ : List EvolutionStage) :
    entryMultiset (l₁ ++ l₂) = entryMultiset l₁ + entryMultiset l₂ := by
  simp [entryMultiset]

theorem entryMultiset_replicate_empty (n : Nat) :
    entryMultiset (List.replicate n (⟨[]⟩ : EvolutionStage)) = 0 := by
  induction n with
  | zero => rfl
  | succ k ih => simpa [List.replicate_succ, entryMultiset_cons] using ih

theorem ensureLevel_entryMultiset (stages : List EvolutionStage) (level : Nat) :
    entryMultiset (ensureLevel stages level) = entryMultiset stages := by
  simp [ensureLevel, entryMultiset_append, entryMultiset_replicate_empty]

theorem ensureLevel_length (stages : List EvolutionStage) (level : Nat) :
    level < (ensureLevel stages level).length := by
  simp [ensureLevel]
  omega

theorem pushEntry_entryMultiset (stages : List EvolutionStage) (level : Nat)
    (e : EvolutionStageSpecies) (h : level < stages.length) :
    entryMultiset (pushEntry stages level e) = entryMultiset stages + {e} := by
  induction stages generalizing level with
  | nil => simp at h
  | cons st rest ih =>
    cases level with
    | zero =>
      simp only [pushEntry, entryMultiset_cons]
      rw [← Multiset.coe_singleton, ← Multiset.coe_add]
      abel
    | succ k =>
      have hk : k < rest.length := by simpa using h
      simp only [pushEntry, entryMultiset_cons, ih k hk]
      abel

theorem filter_entryMultiset (stages : List EvolutionStage) :
    entryMultiset (stages.filter fun stage => decide (stage.species.length > 0))
      = entryMultiset stages := by
  induction stages with
  | nil => rfl
  | cons st rest ih =>
    by_cases h : st.species.length > 0
    · simp [List.filter_cons, h, entryMultiset_cons, ih]
    · have hempty : st.species = [] := by
        cases hs : st.species with
        | nil => rfl
        | cons a l => rw [hs] at h; simp at h
      simp [List.filter_cons, h, entryMultiset_cons, ih, hempty]

theorem traverse_entryMultiset :
    ∀ (node : EvolutionChainLink) (level : Nat) (stages : List EvolutionStage),
      entryMultiset (traverse node level stages)
        = parseableEntries node + entryMultiset stages := by
  refine traverse.induct
    (fun node level stages =>
      entryMultiset (traverse node level stages)
        = parseableEntries node + entryMultiset stages)
    (fun nodes level stages =>
      entryMultiset (traverseList nodes level stages)
        = parseableEntriesList nodes + entryMultiset stages)
    ?_ ?_ ?_
  · intro level stages name url children ih
    simp only [traverse, parseableEntries]
    cases hid : extractIdFromUrl url with
    | none =>
      simp only [hid] at ih ⊢
      rw [ih, ensureLevel_entryMultiset]
      abel
    | some speciesId =>
      simp only [hid] at ih ⊢
      rw [ih, pushEntry_entryMultiset _ _ _ (ensureLevel_length stages level),
        ensureLevel_entryMultiset]
      abel
  · intro level stages
    simp [traverseList, parseableEntriesList]
  · intro level stages child rest ih₁ ih₂
    simp only [traverseList, parseableEntriesList]
    rw [ih₂, ih₁]
    abel

theorem build_entryMultiset (chain : EvolutionChainLink) :
    entryMultiset (buildEvolutionStages chain) = parseableEntries chain := by
  rw [buildEvolutionStages, filter_entryMultiset, traverse_entryMultiset]
  simp [entryMultiset_nil]

theorem parseableEntries_artwork :
    ∀ (node : EvolutionChainLink) (e : EvolutionStageSpecies),
      e ∈ parseableEntries node → e.artwork = getOfficialArtworkUrl e.id := by
  refine parseableEntries.induct
    (fun node => ∀ e ∈ parseableEntries node, e.artwork = getOfficialArtworkUrl e.id)
    (fun nodes => ∀ e ∈ parseableEntriesList nodes, e.artwork = getOfficialArtworkUrl e.id)
    ?_ ?_ ?_
  · intro name url children ih e he
    simp only [parseableEntries] at he
    rcases Multiset.mem_add.mp he with hleft | hright
    · cases hid : extractIdFromUrl url with
      | none => rw [hid] at hleft; simp at hleft
      | some speciesId =>
        rw [hid] at hleft
        have : e = ⟨speciesId, name, getOfficialArtworkUrl speciesId⟩ :=
          Multiset.mem_singleton.mp hleft
        rw [this]
    · exact ih e hright
  · intro e he
    simp [parseableEntriesList] at he
  · intro child rest ih₁ ih₂ e he
    simp only [parseableEntriesList] at he
    rcases Multiset.mem_add.mp he with h | h
    · exact ih₁ e h
    · exact ih₂ e h

theorem mem_entryMultiset (stages : List EvolutionStage) (st : EvolutionStage)
    (s : EvolutionStageSpecies) (hst : st ∈ stages) (hs : s ∈ st.species) :
    s ∈ entryMultiset stages := by
  induction stages with
  | nil => simp at hst
  | cons a rest ih =>
    rw [entryMultiset_cons]
    rcases List.mem_cons.mp hst with h | h
    · subst h
      exact Multiset.mem_add.mpr (Or.inl (Multiset.mem_coe.mpr hs))
    · exact Multiset.mem_add.mpr (Or.inr (ih h))

/-- C1: for the three-stage linear chain with species ids 1, 2, 3 (root 1,
child 2, grandchild 3) and a successful species and chain fetch, resolving with
`currentId = 1` returns exactly two stages whose entry id lists are `[2]` and
`[3]` in that order, and resolving with `currentId = 2` returns exactly one
stage whose entry id list is `[3]`, whatever the per-entry artwork lookups
do. -/
theorem linear_chain_stages (lookup : Nat → Option PokemonSprites) :
    ((fetchEvolutionStages (some ⟨some "https://pokeapi.co/api/v2/evolution-chain/1/"⟩)
          (some bulbasaurChain) lookup 1).map fun stages => stages.map stageIds)
        = some [[2], [3]]
    ∧ ((fetchEvolutionStages (some ⟨some "https://pokeapi.co/api/v2/evolution-chain/1/"⟩)
          (some bulbasaurChain) lookup 2).map fun stages => stages.map stageIds)
        = some [[3]] := by
  constructor <;>
    rw [fetch_eq_hydrate_resolve] <;>
    simp only [Option.map_some', hydrate_stageIds] <;>
    decide

/-- C2: the hydrator preserves the number of stages and, stage by stage, the
number, order, ids and names of the entries, for every input stage sequence
and every pattern of per-species lookup outcomes (only the artwork field may
change). -/
theorem hydrator_preserves_shape (lookup : Nat → Option PokemonSprites)
    (stages : List EvolutionStage) :
    (hydrateEvolutionStages lookup stages).length = stages.length
    ∧ (hydrateEvolutionStages lookup stages).map stageIdNames
        = stages.map stageIdNames := by
  constructor
  · simp [hydrateEvolutionStages]
  · exact hydrate_stageIdNames lookup stages

/-- C3: for every displayed Pokémon with id in the range [1, 1025] and
navigation offset −1 or +1, `handleNavigate` computes the target id as
`((current − min + offset + range) mod range) + min` (mathematical modulus);
in particular navigating backward from id 1 yields 1025 and navigating forward
from id 1025 yields 1. -/
theorem navigation_wraps (st : PageState) (pokemon : Pokemon) (offset : Int)
    (hdisp : st.pokemon = some pokemon)
    (hmin : 1 ≤ (pokemon.id : Int)) (hmax : (pokemon.id : Int) ≤ 1025)
    (hoff : offset = -1 ∨ offset = 1) :
    handleNavigate offset st
        = some (((pokemon.id : Int) - 1 + offset + 1025) % 1025 + 1)
    ∧ navigateTargetId 1 (-1) = 1025
    ∧ navigateTargetId 1025 1 = 1 := by
  refine ⟨?_, by decide, by decide⟩
  have hnonneg : 0 ≤ (pokemon.id : Int) - 1 + offset + 1025 := by rcases hoff with h | h <;> omega
  simp only [handleNavigate, hdisp, navigateTargetId, MIN_POKEMON_ID, MAX_POKEMON_ID,
    TOTAL_POKEMON_COUNT]
  norm_num
  rw [Int.tmod_eq_emod hnonneg (by norm_num)]
  omega

theorem navigation_wraps_witness :
    handleNavigate (-1) ⟨"Bulbasaur", some ⟨1, "bulbasaur", 7, 69, ⟨none, none⟩, [],
        ⟨none, none⟩, none⟩, none, false, none⟩
        = some ((((1 : Nat) : Int) - 1 + -1 + 1025) % 1025 + 1)
    ∧ navigateTargetId 1 (-1) = 1025
    ∧ navigateTargetId 1025 1 = 1 :=
  navigation_wraps ⟨"Bulbasaur", some ⟨1, "bulbasaur", 7, 69, ⟨none, none⟩, [],
      ⟨none, none⟩, none⟩, none, false, none⟩
    ⟨1, "bulbasaur", 7, 69, ⟨none, none⟩, [], ⟨none, none⟩, none⟩ (-1) rfl
    (by norm_num) (by norm_num) (Or.inl rfl)

/-- C4: whenever the species fetch fails, or the species record names a chain
URL and the chain fetch fails (the oracles model network errors, non-ok HTTP
statuses and JSON parse failures alike), the resolver returns the distinguished
failure value `none`, which differs from the empty-success value `some []`. -/
theorem resolver_failure_distinguished (speciesResult : Option SpeciesData)
    (chainResult : Option EvolutionChainLink) (lookup : Nat → Option PokemonSprites)
    (currentPokemonId : Nat)
    (hfail : speciesResult = none
      ∨ ∃ speciesData chainUrl, speciesResult = some speciesData
          ∧ speciesData.evolution_chain_url = some chainUrl ∧ chainResult = none) :
    fetchEvolutionStages speciesResult chainResult lookup currentPokemonId = none
    ∧ fetchEvolutionStages speciesResult chainResult lookup currentPokemonId
        ≠ some [] := by
  have hnone : fetchEvolutionStages speciesResult chainResult lookup currentPokemonId
      = none := by
    rcases hfail with h | ⟨speciesData, chainUrl, hs, hu, hc⟩
    · simp [fetchEvolutionStages, h]
    · subst hs; subst hc
      simp [fetchEvolutionStages, hu]
  exact ⟨hnone, by simp [hnone]⟩

theorem resolver_failure_distinguished_witness :
    fetchEvolutionStages none none (fun _ => none) 1 = none
    ∧ fetchEvolutionStages none none (fun _ => none) 1 ≠ some [] :=
  resolver_failure_distinguished none none (fun _ => none) 1 (Or.inl rfl)

/-- C6: flattening drops exactly the nodes whose species URL has no parseable
numeric id: the multiset of all entries of the built stages equals the multiset
of entries contributed by the parseable nodes of the whole tree, so an
unparseable node contributes nothing while every other (sibling or descendant)
parseable node is still processed and included. -/
theorem unparseable_nodes_dropped (chain : EvolutionChainLink) :
    entryMultiset (buildEvolutionStages chain) = parseableEntries chain :=
  build_entryMultiset chain

/-- C7: a successfully fetched species record without an evolution-chain
reference makes the resolver succeed with the empty stage sequence, not
fail. -/
theorem missing_chain_reference_is_success (speciesData : SpeciesData)
    (chainResult : Option EvolutionChainLink) (lookup : Nat → Option PokemonSprites)
    (currentPokemonId : Nat)
    (hnourl : speciesData.evolution_chain_url = none) :
    fetchEvolutionStages (some speciesData) chainResult lookup currentPokemonId
        = some []
    ∧ fetchEvolutionStages (some speciesData) chainResult lookup currentPokemonId
        ≠ none := by
  have h : fetchEvolutionStages (some speciesData) chainResult lookup currentPokemonId
      = some [] := by
    simp [fetchEvolutionStages, hnourl]
  exact ⟨h, by simp [h]⟩

theorem missing_chain_reference_is_success_witness :
    fetchEvolutionStages (some ⟨none⟩) none (fun _ => none) 151 = some []
    ∧ fetchEvolutionStages (some ⟨none⟩) none (fun _ => none) 151 ≠ none :=
  missing_chain_reference_is_success ⟨none⟩ none (fun _ => none) 151 rfl

/-- C8: when both fetches succeed but no stage of the flattened chain contains
an entry with id `currentPokemonId`, the resolver returns the empty stage
sequence, not the failure value. -/
theorem absent_species_returns_empty (u : String) (chain : EvolutionChainLink)
    (lookup : Nat → Option PokemonSprites) (currentPokemonId : Nat)
    (habsent : ∀ stage ∈ buildEvolutionStages chain, ∀ sp ∈ stage.species,
      sp.id ≠ currentPokemonId) :
    fetchEvolutionStages (some ⟨some u⟩) (some chain) lookup currentPokemonId
        = some []
    ∧ fetchEvolutionStages (some ⟨some u⟩) (some chain) lookup currentPokemonId
        ≠ none := by
  have hidx : List.findIdx?
      (fun stage => stage.species.any fun species => species.id == currentPokemonId)
      (buildEvolutionStages chain) = none := by
    rw [List.findIdx?_eq_none_iff]
    intro stage hstage
    rw [List.any_eq_false]
    intro sp hsp
    simpa using habsent stage hstage sp hsp
  have h : fetchEvolutionStages (some ⟨some u⟩) (some chain) lookup currentPokemonId
      = some [] := by
    rw [fetch_eq_hydrate_resolve]
    simp [resolveStages, hidx, hydrateEvolutionStages]
  exact ⟨h, by simp [h]⟩

theorem absent_species_returns_empty_witness :
    fetchEvolutionStages (some ⟨some "https://pokeapi.co/api/v2/evolution-chain/1/"⟩)
        (some bulbasaurChain) (fun _ => none) 99 = some []
    ∧ fetchEvolutionStages (some ⟨some "https://pokeapi.co/api/v2/evolution-chain/1/"⟩)
        (some bulbasaurChain) (fun _ => none) 99 ≠ none :=
  absent_species_returns_empty "https://pokeapi.co/api/v2/evolution-chain/1/"
    bulbasaurChain (fun _ => none) 99 (by decide)

/-- C9: an entry of the built stages whose per-id lookup fails is returned by
the hydrator unchanged, at its original position, and its artwork is the
deterministic static-asset URL computed from its id alone; the hydrator is a
total function, so no lookup failure makes it fail. -/
theorem failed_lookup_keeps_fallback (lookup : Nat → Option PokemonSprites)
    (chain : EvolutionChainLink) (i j : Nat) (s : EvolutionStageSpecies)
    (hentry : ((buildEvolutionStages chain)[i]?.bind fun st => st.species[j]?)
        = some s)
    (hfail : lookup s.id = none) :
    ((hydrateEvolutionStages lookup (buildEvolutionStages chain))[i]?.bind
        fun st => st.species[j]?) = some s
    ∧ s.artwork = getOfficialArtworkUrl s.id := by
  cases hst : (buildEvolutionStages chain)[i]? with
  | none => rw [hst] at hentry; simp at hentry
  | some st =>
    rw [hst] at hentry
    simp only [Option.some_bind] at hentry
    constructor
    · simp only [hydrateEvolutionStages, List.getElem?_map, hst, Option.map_some',
        Option.some_bind]
      rw [hentry]
      simp [hydrateSpecies_of_fail lookup s hfail]
    · have hmem_st : st ∈ buildEvolutionStages chain := List.getElem?_mem hst
      have hmem_s : s ∈ st.species := List.getElem?_mem hentry
      refine parseableEntries_artwork chain s ?_
      rw [← build_entryMultiset]
      exact mem_entryMultiset _ _ _ hmem_st hmem_s

theorem failed_lookup_keeps_fallback_witness :
    ((hydrateEvolutionStages (fun _ => none)
          (buildEvolutionStages bulbasaurChain))[0]?.bind
        fun st => st.species[0]?)
        = some ⟨1, "bulbasaur", getOfficialArtworkUrl 1⟩
    ∧ (⟨1, "bulbasaur", getOfficialArtworkUrl 1⟩ : EvolutionStageSpecies).artwork
        = getOfficialArtworkUrl
            (⟨1, "bulbasaur", getOfficialArtworkUrl 1⟩ : EvolutionStageSpecies).id :=
  failed_lookup_keeps_fallback (fun _ => none) bulbasaurChain 0 0
    ⟨1, "bulbasaur", getOfficialArtworkUrl 1⟩ (by decide) rfl

/-- C10: hydration commutes with taking the suffix of stages after an index:
dropping the stages up to index `k` after hydrating equals hydrating the
dropped suffix, and consequently the code's hydrate-then-slice
`fetchEvolutionStages` coincides with the spec's Resolver-then-Hydrator
composition on every successful fetch. -/
theorem hydration_commutes_with_suffix (lookup : Nat → Option PokemonSprites)
    (stages : List EvolutionStage) (k : Nat) (u : String)
    (chain : EvolutionChainLink) (currentPokemonId : Nat) :
    (hydrateEvolutionStages lookup stages).drop (k + 1)
        = hydrateEvolutionStages lookup (stages.drop (k + 1))
    ∧ fetchEvolutionStages (some ⟨some u⟩) (some chain) lookup currentPokemonId
        = some (hydrateEvolutionStages lookup (resolveStages chain currentPokemonId)) := by
  constructor
  · simp [hydrateEvolutionStages, List.map_drop]
  · exact fetch_eq_hydrate_resolve u chain lookup currentPokemonId

/-- C5, counterexample to the claim as stated: after a failed primary lookup
over a previously displayed record, the evolution state is the
attempted-and-empty value `some []`, not the not-yet-attempted value `none`
that the claim requires (the catch branch runs `setEvolutionStages([])`). -/
theorem failed_search_tristate_cex :
    (fetchPokemon none none none (fun _ => none) (.str "missingno")
        priorState).evolutionStages = some []
    ∧ (fetchPokemon none none none (fun _ => none) (.str "missingno")
        priorState).evolutionStages ≠ none := by
  constructor <;> decide

/-- C5, amended: for every search whose normalised identifier is non-empty and
whose primary record lookup fails, the orchestrator ends with no displayed
record, the evolution state set to the attempted-and-empty value (the empty
stage list), and exactly one user-visible error message set. -/
theorem failed_search_clears (primaryResult : Option Pokemon)
    (speciesResult : Option SpeciesData) (chainResult : Option EvolutionChainLink)
    (lookup : Nat → Option PokemonSprites) (identifier : SearchIdentifier)
    (st : PageState)
    (hnonempty : normalizeIdentifier identifier ≠ "")
    (hfail : primaryResult = none) :
    (fetchPokemon primaryResult speciesResult chainResult lookup identifier st).pokemon
        = none
    ∧ (fetchPokemon primaryResult speciesResult chainResult lookup identifier st).error
        = some "No Pokémon found with that name. Try another search."
    ∧ (fetchPokemon primaryResult speciesResult chainResult lookup identifier
        st).evolutionStages = some [] := by
  subst hfail
  simp [fetchPokemon, hnonempty]

theorem failed_search_clears_witness :
    (fetchPokemon none none none (fun _ => none) (.str "missingno")
        priorState).pokemon = none
    ∧ (fetchPokemon none none none (fun _ => none) (.str "missingno")
        priorState).error = some "No Pokémon found with that name. Try another search."
    ∧ (fetchPokemon none none none (fun _ => none) (.str "missingno")
        priorState).evolutionStages = some [] :=
  failed_search_clears none none none (fun _ => none) (.str "missingno") priorState
    (by decide) rfl

end VibeCode
